import Mathlib

/-
Verification of the clearcontainers proxy client against its specification.

The Go sources embedded here are:
  * api package constants (protocol version, frame types, command and
    stream opcode spaces, frame header layout);
  * client package (`client.go`): `sendPayload`, `errorFromResponse`, and
    the operation catalog `RegisterVM`, `Attach`, `AllocateIo`, `Hyper`,
    `UnregisterVM`.

Modelling conventions:
  * Go `map[string]interface{}` response data is a `List (String × DynValue)`
    consulted with `List.lookup`, mirroring `v, ok := m[k]`.
  * A Go `error` value is `Option String` (`errors.New msg` ↦ `some msg`,
    nil ↦ `none`).
  * A failed unchecked type assertion `val.(float64)` panics in Go; the
    outcome types below carry an explicit `panicked` constructor for it.
  * The descriptor side channel is a list of pending descriptors;
    `api.ReadFd` consumes the head and fails when none is available.
  * Transport writes/reads are recorded as a trace of `TransportOp`.
-/

namespace Proxy

/-- Protocol version constant of the api package: `const Version = 2`. -/
def Version : Nat := 2

/-- Width in bits of the `Version` field of a frame header (`uint16`). -/
def frameHeaderVersionBits : Nat := 16

/-- FrameType values (`type FrameType int`, iota): command frame. -/
def TypeCommand : Int := 0

/-- FrameType values: response frame. -/
def TypeResponse : Int := 1

/-- FrameType values: stream frame. -/
def TypeStream : Int := 2

/-- FrameType values: notification frame. -/
def TypeNotification : Int := 3

/-- Sentinel bounding the frame type space. -/
def typeMax : Int := 4

/-- Command opcode (`type Command int`, iota): register a new VM/POD. -/
def CmdRegisterVM : Int := 0

/-- Command opcode: unregister a VM/POD. -/
def CmdUnregisterVM : Int := 1

/-- Command opcode: attach to a registered VM. -/
def CmdAttachVM : Int := 2

/-- Command opcode: send a hyperstart command through the proxy. -/
def CmdHyper : Int := 3

/-- Command opcode: identify the client as a shim. -/
def CmdConnectShim : Int := 4

/-- Command opcode: unregister a shim. -/
def CmdDisconnectShim : Int := 5

/-- Command opcode: send a signal to the process inside the VM. -/
def CmdSignal : Int := 6

/-- Sentinel bounding the command opcode space. -/
def cmdMax : Int := 7

/-- Stream opcode (`type Stream int`, iota): stdin data. -/
def StreamStdin : Int := 0

/-- Stream opcode: stdout data. -/
def StreamStdout : Int := 1

/-- Stream opcode: stderr data. -/
def StreamStderr : Int := 2

/-- Sentinel bounding the stream opcode space. -/
def streamMax : Int := 3

/-- Closed enumeration of the command opcode space: in the frame header,
Opcode must have one of these values when Type is TypeCommand. -/
def commandOpcodes : List Int :=
  [CmdRegisterVM, CmdUnregisterVM, CmdAttachVM, CmdHyper, CmdConnectShim,
   CmdDisconnectShim, CmdSignal]

/-- Closed enumeration of the stream opcode space: in the frame header,
Opcode must have one of these values when Type is TypeStream. -/
def streamOpcodes : List Int :=
  [StreamStdin, StreamStdout, StreamStderr]

/-- An opcode is valid for command frames when it is one of the enumerated
command values. -/
def validCommandOpcode (c : Int) : Prop := c ∈ commandOpcodes

/-- An opcode is valid for stream frames when it is one of the enumerated
stream values. -/
def validStreamOpcode (s : Int) : Prop := s ∈ streamOpcodes

/-- Frame header structure (`FrameHeader` in the api package). Machine
integer fields are modelled as `Nat` with explicit width bounds in
`FrameHeader.WF`; the source field `Type` is spelled `Typ` because `Type`
is reserved in Lean. -/
structure FrameHeader where
  Version : Nat
  HeaderLength : Nat
  pad0 : Nat
  pad1 : Nat
  pad2 : Nat
  Typ : Nat
  Opcode : Nat
  PayloadLength : Nat

/-- Width bounds of the frame header fields: Version and Opcode are 16-bit,
HeaderLength, pad0, pad2 and Type are 8-bit, pad1 is 16-bit, PayloadLength
is 32-bit. -/
def FrameHeader.WF (h : FrameHeader) : Prop :=
  h.Version < 2 ^ 16 ∧ h.HeaderLength < 2 ^ 8 ∧ h.pad0 < 2 ^ 8 ∧
    h.pad1 < 2 ^ 16 ∧ h.pad2 < 2 ^ 8 ∧ h.Typ < 2 ^ 8 ∧
    h.Opcode < 2 ^ 16 ∧ h.PayloadLength < 2 ^ 32

/-- Dynamically-typed JSON value as decoded into a Go `interface{}`.
Numbers are integer-valued here; none of the verified behaviour depends on
fractional values. -/
inductive DynValue where
  | num (n : Int)
  | str (s : String)
  | boolean (b : Bool)
  | null
deriving DecidableEq, Repr

/-- Response envelope: `{Success: bool, Error: string, Data: map}`. -/
structure Response where
  Success : Bool
  Error : String
  Data : List (String × DynValue)
deriving DecidableEq, Repr

/-- Request envelope: `{ID: string, Data: encoded body}`; `Data` is absent
when no payload was supplied. -/
structure Request where
  ID : String
  Data : Option String
deriving DecidableEq, Repr

/-- Typed argument records marshalled by the operation catalog. Field
shapes follow the payload structs used in `client.go` (api.RegisterVM,
api.Attach, api.AllocateIo, api.Hyper, api.UnregisterVM). -/
inductive Payload where
  | registerVM (ContainerID CtlSerial IoSerial Console : String)
  | attach (ContainerID : String)
  | allocateIo (NStreams : Int)
  | hyper (HyperName : String) (Data : Option String)
  | unregisterVM (ContainerID : String)
deriving DecidableEq, Repr

/-- Modelled from the spec: `json.Marshal` lives outside the repository;
the Request body format is a JSON-style keyed record (spec section 6), so
payloads are rendered as concrete JSON text here. -/
def jsonMarshal : Payload → String
  | .registerVM c ctl io con =>
      "\x7b\"containerId\":\"" ++ c ++ "\",\"ctlSerial\":\"" ++ ctl ++
        "\",\"ioSerial\":\"" ++ io ++ "\",\"console\":\"" ++ con ++ "\"\x7d"
  | .attach c => "\x7b\"containerId\":\"" ++ c ++ "\"\x7d"
  | .allocateIo n => "\x7b\"nStreams\":" ++ toString n ++ "\x7d"
  | .hyper name d =>
      "\x7b\"hyperName\":\"" ++ name ++ "\",\"data\":" ++
        (match d with
         | some s => s
         | none => "null") ++ "\x7d"
  | .unregisterVM c => "\x7b\"containerId\":\"" ++ c ++ "\"\x7d"

/-- One transport action performed on the connection. Modelled from the
spec: `api.WriteMessage` and `api.ReadMessage` are outside the repository;
per spec section 4.4 the request is written as a Command-type frame and one
blocking read fetches the reply frame. -/
inductive TransportOp where
  | writeCommandFrame (req : Request)
  | readResponseFrame
deriving DecidableEq, Repr

/-- Embedding of `sendPayload`: builds one Request with the given ID,
marshals the payload into `Data` only when one is supplied, writes the
request once as a Command frame and performs one read for the reply. -/
def sendPayload (id : String) (payload : Option Payload) :
    Request × List TransportOp :=
  let req : Request := ⟨id, payload.map jsonMarshal⟩
  (req, [TransportOp.writeCommandFrame req, TransportOp.readResponseFrame])

/-- Embedding of `errorFromResponse`: Success=false yields the response's
Error text, or "unknown error" when that text is empty; Success=true yields
no error. -/
def errorFromResponse (resp : Response) : Option String :=
  if resp.Success = false then
    if resp.Error ≠ "" then some resp.Error
    else some "unknown error"
  else none

/-- Options record for RegisterVM (`RegisterVMOptions`). -/
structure RegisterVMOptions where
  Console : String
deriving DecidableEq, Repr

/-- Options record for Attach (`AttachOptions`, empty). -/
structure AttachOptions where
deriving DecidableEq, Repr

/-- Return record of RegisterVM (`RegisterVMReturn`). -/
structure RegisterVMReturn where
  Version : Int
deriving DecidableEq, Repr

/-- Return record of Attach (`AttachReturn`). -/
structure AttachReturn where
  Version : Int
deriving DecidableEq, Repr

/-- Result of a Go function returning `(*T, error)`; `panicked` records a
failed unchecked type assertion. -/
inductive Outcome (α : Type) where
  | ret (result : Option α) (err : Option String)
  | panicked
deriving DecidableEq, Repr

/-- Embedding of `Client.RegisterVM`: builds the `register` request from
the arguments, then decodes the reply: missing "version" key returns nil
with a missing-field error; a non-number "version" fails the
`val.(float64)` assertion (panic); otherwise the version is filled in and
`errorFromResponse` supplies the error. -/
def RegisterVM (containerID ctlSerial ioSerial : String)
    (options : Option RegisterVMOptions) (resp : Response) :
    Request × List TransportOp × Outcome RegisterVMReturn :=
  let console :=
    match options with
    | some o => o.Console
    | none => ""
  let (req, trace) := sendPayload "register"
      (some (Payload.registerVM containerID ctlSerial ioSerial console))
  let out : Outcome RegisterVMReturn :=
    match resp.Data.lookup "version" with
    | none => Outcome.ret none (some "RegisterVM: no version in response")
    | some (DynValue.num n) =>
        Outcome.ret (some ⟨n⟩) (errorFromResponse resp)
    | some _ => Outcome.panicked
  (req, trace, out)

/-- Embedding of `Client.Attach`: builds the `attach` request, then decodes
the reply exactly as RegisterVM does, with the `attach` error message. -/
def Attach (containerID : String) (_options : Option AttachOptions)
    (resp : Response) :
    Request × List TransportOp × Outcome AttachReturn :=
  let (req, trace) := sendPayload "attach"
      (some (Payload.attach containerID))
  let out : Outcome AttachReturn :=
    match resp.Data.lookup "version" with
    | none => Outcome.ret none (some "attach: no version in response")
    | some (DynValue.num n) =>
        Outcome.ret (some ⟨n⟩) (errorFromResponse resp)
    | some _ => Outcome.panicked
  (req, trace, out)

/-- Result of `Client.AllocateIo`: `(ioBase uint64, ioFile *os.File, err)`,
with `panicked` for the failed type assertion. `ioFile` is the descriptor
number wrapped by `os.NewFile`, or `none` for a nil file. -/
inductive AllocOutcome where
  | ret (ioBase : Nat) (ioFile : Option Nat) (err : Option String)
  | panicked
deriving DecidableEq, Repr

/-- Embedding of `Client.AllocateIo`: builds the `allocateIO` request, then
checks `errorFromResponse` first (returning the zero values on failure),
then looks up "ioBase" (missing-field error if absent, panic if present
but not a number), then reads one descriptor from the side channel
(`api.ReadFd`, modelled as consuming the head of `fdChan`); a failed
descriptor read returns the fd-transfer error. Returns the outcome along
with the descriptors still pending on the channel. -/
def AllocateIo (nStreams : Int) (resp : Response) (fdChan : List Nat) :
    Request × List TransportOp × AllocOutcome × List Nat :=
  let (req, trace) := sendPayload "allocateIO"
      (some (Payload.allocateIo nStreams))
  let (out, rest) :=
    match errorFromResponse resp with
    | some e => (AllocOutcome.ret 0 none (some e), fdChan)
    | none =>
      match resp.Data.lookup "ioBase" with
      | none =>
          (AllocOutcome.ret 0 none (some "allocateio: no ioBase in response"),
           fdChan)
      | some (DynValue.num n) =>
          match fdChan with
          | [] =>
              (AllocOutcome.ret 0 none (some "allocateio: couldn't read fd"),
               fdChan)
          | fd :: rest =>
              (AllocOutcome.ret ((n % 2 ^ 64).toNat) (some fd) none, rest)
      | some _ => (AllocOutcome.panicked, fdChan)
  (req, trace, out, rest)

/-- Embedding of `Client.Hyper`: builds the `hyper` request (the message,
when present, is already an encoded body) and returns
`errorFromResponse`. -/
def Hyper (hyperName : String) (hyperMessage : Option String)
    (resp : Response) : Request × List TransportOp × Option String :=
  let (req, trace) := sendPayload "hyper"
      (some (Payload.hyper hyperName hyperMessage))
  (req, trace, errorFromResponse resp)

/-- Embedding of `Client.UnregisterVM`: builds the `unregister` request and
returns `errorFromResponse`. -/
def UnregisterVM (containerID : String) (resp : Response) :
    Request × List TransportOp × Option String :=
  let (req, trace) := sendPayload "unregister"
      (some (Payload.unregisterVM containerID))
  (req, trace, errorFromResponse resp)

/-- The outcome component of `RegisterVM` depends only on the decoding of
the response (helper unfolding lemma). -/
theorem RegisterVM_out_eq (cid ctl io : String)
    (opts : Option RegisterVMOptions) (resp : Response) :
    (RegisterVM cid ctl io opts resp).2.2 =
      (match resp.Data.lookup "version" with
       | none => Outcome.ret none (some "RegisterVM: no version in response")
       | some (DynValue.num n) =>
           Outcome.ret (some ⟨n⟩) (errorFromResponse resp)
       | some _ => Outcome.panicked) := rfl

/-- The outcome component of `Attach` depends only on the decoding of the
response (helper unfolding lemma). -/
theorem Attach_out_eq (cid : String) (opts : Option AttachOptions)
    (resp : Response) :
    (Attach cid opts resp).2.2 =
      (match resp.Data.lookup "version" with
       | none => Outcome.ret none (some "attach: no version in response")
       | some (DynValue.num n) =>
           Outcome.ret (some ⟨n⟩) (errorFromResponse resp)
       | some _ => Outcome.panicked) := rfl

/-- The outcome and remaining-channel components of `AllocateIo` depend
only on the response and the side channel (helper unfolding lemma). -/
theorem AllocateIo_out_eq (n : Int) (resp : Response) (fdChan : List Nat) :
    (AllocateIo n resp fdChan).2.2 =
      (match errorFromResponse resp with
       | some e => (AllocOutcome.ret 0 none (some e), fdChan)
       | none =>
         match resp.Data.lookup "ioBase" with
         | none =>
             (AllocOutcome.ret 0 none
                (some "allocateio: no ioBase in response"), fdChan)
         | some (DynValue.num m) =>
             match fdChan with
             | [] =>
                 (AllocOutcome.ret 0 none
                    (some "allocateio: couldn't read fd"), fdChan)
             | fd :: rest =>
                 (AllocOutcome.ret ((m % 2 ^ 64).toNat) (some fd) none, rest)
         | some _ => (AllocOutcome.panicked, fdChan)) := rfl

/-- With `Success = false`, `errorFromResponse` yields the remote error
text, defaulting to "unknown error" (helper lemma). -/
theorem errorFromResponse_of_failure (resp : Response)
    (h : resp.Success = false) :
    errorFromResponse resp =
      some (if resp.Error = "" then "unknown error" else resp.Error) := by
  by_cases he : resp.Error = "" <;> simp [errorFromResponse, h, he]

/-- C2: a response with Success = false yields a remote error carrying
exactly the response's Error text when it is non-empty and the message
"unknown error" when it is empty; a response with Success = true yields no
error. -/
theorem claim_remote_error_derivation (resp : Response) :
    (resp.Success = false → resp.Error ≠ "" →
       errorFromResponse resp = some resp.Error) ∧
    (resp.Success = false → resp.Error = "" →
       errorFromResponse resp = some "unknown error") ∧
    (resp.Success = true → errorFromResponse resp = none) := by
  refine ⟨fun h he => ?_, fun h he => ?_, fun h => ?_⟩
  · simp [errorFromResponse, h, he]
  · simp [errorFromResponse, h, he]
  · simp [errorFromResponse, h]

/-- C2 witness: evaluation at the three kinds of concrete responses the
claim names. -/
theorem claim_remote_error_derivation_witness :
    errorFromResponse ⟨false, "busy", []⟩ = some "busy" ∧
    errorFromResponse ⟨false, "", []⟩ = some "unknown error" ∧
    errorFromResponse ⟨true, "", []⟩ = none :=
  ⟨(claim_remote_error_derivation ⟨false, "busy", []⟩).1 rfl (by decide),
   (claim_remote_error_derivation ⟨false, "", []⟩).2.1 rfl rfl,
   (claim_remote_error_derivation ⟨true, "", []⟩).2.2 rfl⟩

/-- C4: against a response whose Data lacks the "version" key, RegisterVM
and Attach return a nil result together with their missing-field error,
and do not crash (the outcome is a return, not a panic). -/
theorem claim_missing_version_field (cid ctl io : String)
    (opts : Option RegisterVMOptions) (aopts : Option AttachOptions)
    (resp : Response) (h : resp.Data.lookup "version" = none) :
    (RegisterVM cid ctl io opts resp).2.2 =
      Outcome.ret none (some "RegisterVM: no version in response") ∧
    (Attach cid aopts resp).2.2 =
      Outcome.ret none (some "attach: no version in response") := by
  rw [RegisterVM_out_eq, Attach_out_eq, h]
  exact ⟨rfl, rfl⟩

/-- C4 witness: evaluation at a concrete response with empty Data. -/
theorem claim_missing_version_field_witness :
    (RegisterVM "vm" "ctl" "io" none ⟨true, "", []⟩).2.2 =
      Outcome.ret none (some "RegisterVM: no version in response") ∧
    (Attach "vm" none ⟨true, "", []⟩).2.2 =
      Outcome.ret none (some "attach: no version in response") :=
  claim_missing_version_field "vm" "ctl" "io" none none ⟨true, "", []⟩ rfl

/-- C6: Attach("container-A") against a peer replying
Success = true, Data = version ↦ 2 returns a result with Version = 2 and a
nil error. -/
theorem claim_attach_concrete_success :
    (Attach "container-A" none
        ⟨true, "", [("version", DynValue.num 2)]⟩).2.2 =
      Outcome.ret (some ⟨2⟩) none := by
  decide

/-- C7: the frame type space and both opcode spaces are closed
enumerations with the numbering of the spec (Command=0, Response=1,
Stream=2, Notification=3; command opcodes 0..6 ending at CmdSignal; stream
opcodes 0..2), each space is bounded by its maximum sentinel, and an
opcode is valid for its type exactly when it is below that sentinel (so an
opcode at or past the sentinel is invalid). -/
theorem claim_opcode_spaces_closed :
    TypeCommand = 0 ∧ TypeResponse = 1 ∧ TypeStream = 2 ∧
    TypeNotification = 3 ∧ typeMax = 4 ∧
    CmdRegisterVM = 0 ∧ CmdUnregisterVM = 1 ∧ CmdAttachVM = 2 ∧
    CmdHyper = 3 ∧ CmdConnectShim = 4 ∧ CmdDisconnectShim = 5 ∧
    CmdSignal = 6 ∧ cmdMax = 7 ∧
    StreamStdin = 0 ∧ StreamStdout = 1 ∧ StreamStderr = 2 ∧
    streamMax = 3 ∧
    (∀ c : Int, validCommandOpcode c ↔ 0 ≤ c ∧ c < cmdMax) ∧
    (∀ s : Int, validStreamOpcode s ↔ 0 ≤ s ∧ s < streamMax) := by
  refine ⟨rfl, rfl, rfl, rfl, rfl, rfl, rfl, rfl, rfl, rfl, rfl, rfl, rfl,
    rfl, rfl, rfl, rfl, fun c => ?_, fun s => ?_⟩ <;>
    simp [validCommandOpcode, commandOpcodes, validStreamOpcode,
      streamOpcodes, CmdRegisterVM, CmdUnregisterVM, CmdAttachVM, CmdHyper,
      CmdConnectShim, CmdDisconnectShim, CmdSignal, cmdMax, StreamStdin,
      StreamStdout, StreamStderr, streamMax] <;>
    omega

/-- C8: the protocol version constant of the api package equals 2 and fits
the 16-bit Version field carried by every frame header. -/
theorem claim_protocol_version_is_two :
    Version = 2 ∧ Version < 2 ^ frameHeaderVersionBits := by
  decide

/-- C9: RegisterVM and Attach probe Data "version" before consulting the
Success flag: a failed reply lacking "version" yields the missing-field
error (a fixed message independent of the remote Error text), and a failed
reply carrying a numeric "version" yields a non-nil result with that
version filled in together with the remote error. -/
theorem claim_version_probed_before_success (cid ctl io : String)
    (opts : Option RegisterVMOptions) (aopts : Option AttachOptions)
    (resp : Response) (h : resp.Success = false) :
    (resp.Data.lookup "version" = none →
       (RegisterVM cid ctl io opts resp).2.2 =
         Outcome.ret none (some "RegisterVM: no version in response") ∧
       (Attach cid aopts resp).2.2 =
         Outcome.ret none (some "attach: no version in response")) ∧
    (∀ n : Int, resp.Data.lookup "version" = some (DynValue.num n) →
       (RegisterVM cid ctl io opts resp).2.2 =
         Outcome.ret (some ⟨n⟩)
           (some (if resp.Error = "" then "unknown error" else resp.Error)) ∧
       (Attach cid aopts resp).2.2 =
         Outcome.ret (some ⟨n⟩)
           (some (if resp.Error = "" then "unknown error"
                  else resp.Error))) := by
  constructor
  · intro hv
    rw [RegisterVM_out_eq, Attach_out_eq, hv]
    exact ⟨rfl, rfl⟩
  · intro n hv
    rw [RegisterVM_out_eq, Attach_out_eq, hv,
      errorFromResponse_of_failure resp h]
    exact ⟨rfl, rfl⟩

/-- C9 witness: evaluation at failed replies without and with a numeric
version. -/
theorem claim_version_probed_before_success_witness :
    ((RegisterVM "vm" "ctl" "io" none ⟨false, "busy", []⟩).2.2 =
       Outcome.ret none (some "RegisterVM: no version in response") ∧
     (Attach "vm" none ⟨false, "busy", []⟩).2.2 =
       Outcome.ret none (some "attach: no version in response")) ∧
    ((RegisterVM "vm" "ctl" "io" none
        ⟨false, "busy", [("version", DynValue.num 3)]⟩).2.2 =
       Outcome.ret (some ⟨3⟩) (some "busy") ∧
     (Attach "vm" none
        ⟨false, "busy", [("version", DynValue.num 3)]⟩).2.2 =
       Outcome.ret (some ⟨3⟩) (some "busy")) := by
  constructor
  · exact (claim_version_probed_before_success "vm" "ctl" "io" none none
      ⟨false, "busy", []⟩ rfl).1 rfl
  · have T := (claim_version_probed_before_success "vm" "ctl" "io" none none
      ⟨false, "busy", [("version", DynValue.num 3)]⟩ rfl).2 3 (by decide)
    simpa using T

/-- C10: for every failed reply to allocateIO, AllocateIo returns ioBase 0,
a nil file and the remote error, leaves the descriptor side channel
untouched (no descriptor received), and its outcome does not depend on the
Data mapping (ioBase is never inspected). -/
theorem claim_allocateIo_remote_failure (nstr : Int) (resp : Response)
    (fdChan : List Nat) (h : resp.Success = false) :
    (AllocateIo nstr resp fdChan).2.2 =
      (AllocOutcome.ret 0 none
         (some (if resp.Error = "" then "unknown error" else resp.Error)),
       fdChan) ∧
    (∀ d : List (String × DynValue),
       (AllocateIo nstr ⟨resp.Success, resp.Error, d⟩ fdChan).2.2 =
         (AllocateIo nstr resp fdChan).2.2) := by
  have hf := errorFromResponse_of_failure resp h
  constructor
  · rw [AllocateIo_out_eq, hf]
  · intro d
    have hf2 := errorFromResponse_of_failure ⟨resp.Success, resp.Error, d⟩ h
    rw [AllocateIo_out_eq, AllocateIo_out_eq, hf, hf2]

/-- C10 witness: evaluation at a concrete failed reply whose Data even
contains an ioBase key; nothing is consumed from the channel. -/
theorem claim_allocateIo_remote_failure_witness :
    (AllocateIo 4 ⟨false, "busy", [("ioBase", DynValue.num 1)]⟩
        [7, 8]).2.2 =
      (AllocOutcome.ret 0 none
         (some (if "busy" = "" then "unknown error" else "busy")), [7, 8]) ∧
    (AllocateIo 4 ⟨false, "busy", []⟩ [7, 8]).2.2 =
      (AllocateIo 4 ⟨false, "busy", [("ioBase", DynValue.num 1)]⟩
        [7, 8]).2.2 :=
  ⟨(claim_allocateIo_remote_failure 4
      ⟨false, "busy", [("ioBase", DynValue.num 1)]⟩ [7, 8] rfl).1,
   (claim_allocateIo_remote_failure 4
      ⟨false, "busy", [("ioBase", DynValue.num 1)]⟩ [7, 8] rfl).2 []⟩

/-- C3: AllocateIo(4) against a successful reply with ioBase 1024 and one
pending descriptor returns ioBase 1024, a file wrapping that descriptor
and no error, consuming the descriptor; in general a successful decode of
ioBase consumes exactly one descriptor, an empty side channel yields the
fd-transfer error with ioBase 0 and a nil file, and no descriptor is
consumed unless ioBase was decoded from a successful reply. -/
theorem claim_allocateIo_success_path :
    (AllocateIo 4 ⟨true, "", [("ioBase", DynValue.num 1024)]⟩ [9]).2.2 =
      (AllocOutcome.ret 1024 (some 9) none, []) ∧
    (∀ (nstr mVal : Int) (resp : Response) (fd : Nat) (rest : List Nat),
       errorFromResponse resp = none →
       resp.Data.lookup "ioBase" = some (DynValue.num mVal) →
       (AllocateIo nstr resp (fd :: rest)).2.2 =
         (AllocOutcome.ret ((mVal % 2 ^ 64).toNat) (some fd) none, rest)) ∧
    (∀ (nstr mVal : Int) (resp : Response),
       errorFromResponse resp = none →
       resp.Data.lookup "ioBase" = some (DynValue.num mVal) →
       (AllocateIo nstr resp []).2.2 =
         (AllocOutcome.ret 0 none (some "allocateio: couldn't read fd"),
          [])) ∧
    (∀ (nstr : Int) (resp : Response) (fdChan : List Nat),
       resp.Data.lookup "ioBase" = none ∨ errorFromResponse resp ≠ none →
       (AllocateIo nstr resp fdChan).2.2.2 = fdChan) := by
  refine ⟨by decide, ?_, ?_, ?_⟩
  · intro nstr mVal resp fd rest hE hv
    rw [AllocateIo_out_eq, hE, hv]
  · intro nstr mVal resp hE hv
    rw [AllocateIo_out_eq, hE, hv]
  · intro nstr resp fdChan hcase
    rcases hE : errorFromResponse resp with _ | e
    · rcases hcase with hnone | hne
      · rw [AllocateIo_out_eq, hE, hnone]
      · exact absurd hE hne
    · rw [AllocateIo_out_eq, hE]

/-- C3 witness: evaluation with a pending descriptor, with an empty
channel, and with a reply that never reaches the descriptor read. -/
theorem claim_allocateIo_success_path_witness :
    (AllocateIo 2 ⟨true, "", [("ioBase", DynValue.num 5)]⟩ [7, 8]).2.2 =
      (AllocOutcome.ret (((5 : Int) % 2 ^ 64).toNat) (some 7) none, [8]) ∧
    (AllocateIo 2 ⟨true, "", [("ioBase", DynValue.num 5)]⟩ []).2.2 =
      (AllocOutcome.ret 0 none (some "allocateio: couldn't read fd"), []) ∧
    (AllocateIo 2 ⟨true, "", []⟩ [7]).2.2.2 = [7] :=
  ⟨claim_allocateIo_success_path.2.1 2 5
      ⟨true, "", [("ioBase", DynValue.num 5)]⟩ 7 [8] rfl rfl,
   claim_allocateIo_success_path.2.2.1 2 5
      ⟨true, "", [("ioBase", DynValue.num 5)]⟩ rfl rfl,
   claim_allocateIo_success_path.2.2.2 2 ⟨true, "", []⟩ [7] (Or.inl rfl)⟩

/-- C5: every catalog operation builds exactly one Request whose ID is its
fixed operation name, with Data the encoding of its (non-nil) payload, and
its transport trace is one Command-frame write of that request followed by
exactly one read; in general sendPayload sets Data to the encoded payload
exactly when a payload is supplied. -/
theorem claim_call_shape (cid ctl io : String)
    (opts : Option RegisterVMOptions) (aopts : Option AttachOptions)
    (nstr : Int) (hname : String) (hmsg : Option String) (ucid : String)
    (resp : Response) (fdChan : List Nat) (id : String)
    (p : Option Payload) :
    (RegisterVM cid ctl io opts resp).1.ID = "register" ∧
    (RegisterVM cid ctl io opts resp).1.Data =
      some (jsonMarshal (Payload.registerVM cid ctl io
        (match opts with
         | some o => o.Console
         | none => ""))) ∧
    (RegisterVM cid ctl io opts resp).2.1 =
      [TransportOp.writeCommandFrame (RegisterVM cid ctl io opts resp).1,
       TransportOp.readResponseFrame] ∧
    (Attach cid aopts resp).1.ID = "attach" ∧
    (Attach cid aopts resp).1.Data =
      some (jsonMarshal (Payload.attach cid)) ∧
    (Attach cid aopts resp).2.1 =
      [TransportOp.writeCommandFrame (Attach cid aopts resp).1,
       TransportOp.readResponseFrame] ∧
    (AllocateIo nstr resp fdChan).1.ID = "allocateIO" ∧
    (AllocateIo nstr resp fdChan).1.Data =
      some (jsonMarshal (Payload.allocateIo nstr)) ∧
    (AllocateIo nstr resp fdChan).2.1 =
      [TransportOp.writeCommandFrame (AllocateIo nstr resp fdChan).1,
       TransportOp.readResponseFrame] ∧
    (Hyper hname hmsg resp).1.ID = "hyper" ∧
    (Hyper hname hmsg resp).1.Data =
      some (jsonMarshal (Payload.hyper hname hmsg)) ∧
    (Hyper hname hmsg resp).2.1 =
      [TransportOp.writeCommandFrame (Hyper hname hmsg resp).1,
       TransportOp.readResponseFrame] ∧
    (UnregisterVM ucid resp).1.ID = "unregister" ∧
    (UnregisterVM ucid resp).1.Data =
      some (jsonMarshal (Payload.unregisterVM ucid)) ∧
    (UnregisterVM ucid resp).2.1 =
      [TransportOp.writeCommandFrame (UnregisterVM ucid resp).1,
       TransportOp.readResponseFrame] ∧
    (sendPayload id p).1.ID = id ∧
    (sendPayload id p).1.Data = p.map jsonMarshal ∧
    (sendPayload id p).2 =
      [TransportOp.writeCommandFrame (sendPayload id p).1,
       TransportOp.readResponseFrame] :=
  ⟨rfl, rfl, rfl, rfl, rfl, rfl, rfl, rfl, rfl, rfl, rfl, rfl, rfl, rfl,
   rfl, rfl, rfl, rfl⟩

/-- C1 counterexample: a reply whose "version" value is the string "2"
makes RegisterVM fail its unchecked numeric type assertion, i.e. the
operation crashes instead of returning a TypeMismatchError. -/
theorem claim_typemismatch_counterexample :
    (RegisterVM "vm" "ctl" "io" none
        ⟨true, "", [("version", DynValue.str "2")]⟩).2.2 =
      Outcome.panicked := by
  decide

/-- C1 amended: whenever the expected numeric key is present but bound to
a non-number, the unchecked narrowing panics: RegisterVM and Attach panic
on a non-numeric "version", and AllocateIo panics on a non-numeric
"ioBase" provided the reply was successful (the Success flag is checked
first). -/
theorem claim_nonnumeric_value_panics (cid ctl io : String)
    (opts : Option RegisterVMOptions) (aopts : Option AttachOptions)
    (nstr : Int) (fdChan : List Nat) (resp : Response) (v : DynValue)
    (hv : ∀ n : Int, v ≠ DynValue.num n) :
    (resp.Data.lookup "version" = some v →
       (RegisterVM cid ctl io opts resp).2.2 = Outcome.panicked ∧
       (Attach cid aopts resp).2.2 = Outcome.panicked) ∧
    (errorFromResponse resp = none →
       resp.Data.lookup "ioBase" = some v →
       (AllocateIo nstr resp fdChan).2.2.1 = AllocOutcome.panicked) := by
  constructor
  · intro h
    rcases v with n | s | b | _
    · exact absurd rfl (hv n)
    all_goals
      rw [RegisterVM_out_eq, Attach_out_eq, h]
      exact ⟨rfl, rfl⟩
  · intro hE h
    rcases v with n | s | b | _
    · exact absurd rfl (hv n)
    all_goals rw [AllocateIo_out_eq, hE, h]

/-- C1 amended witness: evaluation at a reply binding both expected keys
to a string value. -/
theorem claim_nonnumeric_value_panics_witness :
    ((RegisterVM "vm" "ctl" "io" none
        ⟨true, "", [("version", DynValue.str "x"),
                    ("ioBase", DynValue.str "x")]⟩).2.2 =
       Outcome.panicked ∧
     (Attach "vm" none
        ⟨true, "", [("version", DynValue.str "x"),
                    ("ioBase", DynValue.str "x")]⟩).2.2 =
       Outcome.panicked) ∧
    (AllocateIo 1
        ⟨true, "", [("version", DynValue.str "x"),
                    ("ioBase", DynValue.str "x")]⟩ [5]).2.2.1 =
      AllocOutcome.panicked := by
  have T := claim_nonnumeric_value_panics "vm" "ctl" "io" none none 1 [5]
    ⟨true, "", [("version", DynValue.str "x"),
                ("ioBase", DynValue.str "x")]⟩
    (DynValue.str "x") (fun n h => nomatch h)
  exact ⟨T.1 (by decide), T.2 rfl (by decide)⟩

end Proxy
